import Mathlib

/-!
Shallow embedding of `analyticsclient/course.py` (Python 2), the course
resource of the edX analytics data API client.

Modelling conventions:
* Python strings are `String`; an optional argument that may be `None` is
  `Option String`, with `none` standing for `None`.
* Python truthiness of such an argument (`if start_date:`) is `truthy`.
* The HTTP collaborator `client.get(path, data_format)` is a function
  `String → String → Except PyErr α`; raising an exception is returning
  `Except.error`.
* `urllib.urlencode` receives a dict; CPython 2.7 iterates a dict in
  hash-table order.  The dicts built in `course.py` hold at most the keys
  `start_date`, `end_date` and `activity_type`, whose slots in the 8-slot
  small table are 5, 6 and 7 (computed by `py2shash`, the CPython 2.7
  string hash on a 64-bit platform with hash randomization off, which is
  the default).  These keys occupy pairwise distinct slots, so iteration
  visits them in ascending slot order, which `dictItems` realises by an
  insertion sort on the slot.
-/

namespace AnalyticsClient

/-- Python truthiness of an optional string argument: `None` and the empty
string are falsy, every non-empty string is truthy. -/
def truthy : Option String → Bool
  | none => false
  | some s => !(s == "")

/-- Python string rendering (`str` or `format`) of an optional string:
`None` renders as the four characters `None`. -/
def pyStr : Option String → String
  | none => "None"
  | some s => s

/-- One step of the CPython 2.7 string hash on a 64-bit platform:
`x = (1000003*x) ^ ord(c)`, with the multiplication wrapping modulo
`2 ^ 64`. -/
def hashStep (x : Nat) (c : Char) : Nat :=
  ((1000003 * x) % 2 ^ 64) ^^^ c.toNat

/-- The CPython 2.7 string hash (64-bit platform, hash randomization off,
the default): start from the first byte shifted left by 7, fold `hashStep`
over all bytes, xor with the length, and map the value minus one to minus
two.  The result is the hash read as an unsigned 64-bit number. -/
def py2shash (s : String) : Nat :=
  match s.data with
  | [] => 0
  | c :: _ =>
    let x := s.data.foldl hashStep ((c.toNat <<< 7) % 2 ^ 64)
    let x := x ^^^ s.data.length
    if x = 2 ^ 64 - 1 then 2 ^ 64 - 2 else x

/-- Slot of a key in the 8-slot table of a small CPython dict: the hash
masked with 7. -/
def slot (s : String) : Nat := py2shash s % 8

/-- Insert an entry into a list kept in ascending order of the slot of the
key.  Iterating a small CPython 2.7 dict visits its 8 slots in ascending
order; for keys on pairwise distinct slots (true of every key set built in
`course.py`) that is exactly ascending slot order. -/
def insertBySlot : String × String → List (String × String) → List (String × String)
  | p, [] => [p]
  | (k, v), (k2, v2) :: qs =>
    if slot k ≤ slot k2 then (k, v) :: (k2, v2) :: qs
    else (k2, v2) :: insertBySlot (k, v) qs

/-- The `items()` sequence of a small CPython 2.7 dict holding the given
entries. -/
def dictItems (l : List (String × String)) : List (String × String) :=
  l.foldr insertBySlot []

/-- The `always_safe` character set of the Python 2 `urllib` module: ASCII
letters, digits, underscore, dot and hyphen.  Note the tilde is not in
this set, although RFC 3986 counts it as unreserved. -/
def alwaysSafe (c : Char) : Bool :=
  ('A' ≤ c && c ≤ 'Z') || ('a' ≤ c && c ≤ 'z') || ('0' ≤ c && c ≤ '9') ||
    c == '_' || c == '.' || c == '-'

/-- The unreserved characters of RFC 3986 — ASCII letters, digits, hyphen,
dot, underscore and tilde.  This definition follows the vocabulary of the
specification (which speaks of unreserved and reserved URL characters),
not the source, and exists to compare that vocabulary with the
implementation's `always_safe` set: the two differ exactly at the
tilde. -/
def rfc3986Unreserved (c : Char) : Bool :=
  ('A' ≤ c && c ≤ 'Z') || ('a' ≤ c && c ≤ 'z') || ('0' ≤ c && c ≤ '9') ||
    c == '-' || c == '.' || c == '_' || c == '~'

/-- An uppercase hexadecimal digit, as produced by the Python format
string percent zero two X. -/
def hexUpper (n : Nat) : Char :=
  if n < 10 then Char.ofNat (48 + n) else Char.ofNat (55 + n)

/-- Action of `urllib.quote` on one byte: bytes in `always_safe` or in
`safe` pass through, every other byte becomes a percent escape. -/
def quoteChar (safe : String) (c : Char) : List Char :=
  if alwaysSafe c || safe.data.contains c then [c]
  else ['%', hexUpper (c.toNat / 16 % 16), hexUpper (c.toNat % 16)]

/-- Python 2 `urllib.quote(s, safe)`. -/
def quote (s : String) (safe : String) : String :=
  ⟨(s.data.map (quoteChar safe)).flatten⟩

/-- Python 2 `urllib.quote_plus(s)` with the default empty `safe`, as
called by `urllib.urlencode`: when `s` contains a space, quote with the
space kept safe and then turn spaces into plus signs; otherwise plain
`quote` with nothing extra safe. -/
def quote_plus (s : String) : String :=
  if s.data.contains ' ' then (quote s " ").replace " " "+"
  else quote s ""

/-- Joining a list of strings with ampersands, as the join call inside
`urllib.urlencode` does. -/
def joinAmp : List String → String
  | [] => ""
  | [x] => x
  | x :: y :: xs => x ++ "&" ++ joinAmp (y :: xs)

/-- Python 2 `urllib.urlencode` on a small dict: `quote_plus` each key and
value and join the key-value pairs with ampersands, in dict iteration
order. -/
def urlencode (params : List (String × String)) : String :=
  joinAmp ((dictItems params).map fun kv => quote_plus kv.1 ++ "=" ++ quote_plus kv.2)

/-- Modelled from the spec: the error taxonomy of
`analyticsclient.exceptions` (spec section 7) — that module is not under
`src/`.  `InvalidRequestError` is a bad or missing parameter, detected by
the client wrapper or a server 400; `NotFoundError` is a server 404; the
transport error covers every other failure of the collaborator. -/
inductive PyErr where
  | invalidRequestError (msg : String)
  | notFoundError (msg : String)
  | transportError (msg : String)
deriving DecidableEq

/-- The HTTP collaborator: `get(path, data_format)` either returns a
decoded response of type `α` or raises a `PyErr`. -/
structure Client (α : Type) where
  get : String → String → Except PyErr α

/-- State of a `Course` object after `__init__`: the borrowed client and
the course id (the `unicode(course_id)` conversion is the identity on the
string model). -/
structure Course (α : Type) where
  client : Client α
  course_id : String

/-- Modelled from the spec: the constant `activity_type.ANY` of the
constants module, which is not under `src/`; an enumerated string token
forwarded verbatim. -/
def AT_ANY : String := "any"

/-- Modelled from the spec: the constant `data_format.JSON` of the
constants module, which is not under `src/`; the default `data_format` of
every endpoint method. -/
def DF_JSON : String := "json"

/-- The optional `start_date` and `end_date` entries inserted into the
parameter dict by every parameterized method of `course.py`. -/
def dateParams (start_date end_date : Option String) : List (String × String) :=
  (if truthy start_date then [("start_date", pyStr start_date)] else []) ++
    (if truthy end_date then [("end_date", pyStr end_date)] else [])

/-- The shared tail of the parameterized methods: urlencode the params and
append the query string after a question mark, but only when the query
string is non-empty. -/
def appendQuery (path : String) (params : List (String × String)) : String :=
  let querystring := urlencode params
  if querystring = "" then path else path ++ "?" ++ querystring

variable {α : Type}

/-- The path built by `Course.enrollment`: the enrollment segment, then
the demographic as an extra path segment when truthy, then the optional
date query. -/
def enrollment_path (course_id : String) (demographic start_date end_date : Option String) :
    String :=
  let path := "courses/" ++ course_id ++ "/enrollment/"
  let path := if truthy demographic then path ++ pyStr demographic ++ "/" else path
  appendQuery path (dateParams start_date end_date)

/-- Method `Course.enrollment`: build the path and delegate to
`client.get`. -/
def Course.enrollment (self : Course α) (demographic start_date end_date : Option String)
    (data_format : String) : Except PyErr α :=
  self.client.get (enrollment_path self.course_id demographic start_date end_date) data_format

/-- The path built by `Course.activity` once its validation has passed:
the dict holds `activity_type` plus the optional dates, and the question
mark is appended unconditionally. -/
def activity_path (course_id : String) (activity_type start_date end_date : Option String) :
    String :=
  "courses/" ++ course_id ++ "/activity/" ++ "?" ++
    urlencode (("activity_type", pyStr activity_type) :: dateParams start_date end_date)

/-- Method `Course.activity`: raise `InvalidRequestError` when
`activity_type` is falsy, otherwise build the path and delegate to
`client.get`. -/
def Course.activity (self : Course α) (activity_type start_date end_date : Option String)
    (data_format : String) : Except PyErr α :=
  if !truthy activity_type then
    Except.error (PyErr.invalidRequestError "activity_type cannot be None.")
  else
    self.client.get (activity_path self.course_id activity_type start_date end_date) data_format

/-- The path built by `Course.recent_activity`: direct string
interpolation of `activity_type`, with no urlencoding. -/
def recent_activity_path (course_id : String) (activity_type : Option String) : String :=
  "courses/" ++ course_id ++ "/recent_activity/?activity_type=" ++ pyStr activity_type

/-- Method `Course.recent_activity`.  The `DeprecationWarning` side effect
is not modelled; it does not affect the request. -/
def Course.recent_activity (self : Course α) (activity_type : Option String)
    (data_format : String) : Except PyErr α :=
  self.client.get (recent_activity_path self.course_id activity_type) data_format

/-- The path built by `Course.problems`. -/
def problems_path (course_id : String) : String :=
  "courses/" ++ course_id ++ "/problems/"

/-- Method `Course.problems`. -/
def Course.problems (self : Course α) (data_format : String) : Except PyErr α :=
  self.client.get (problems_path self.course_id) data_format

/-- The path built by `Course.video_settings`. -/
def video_settings_path (course_id : String) : String :=
  "courses/" ++ course_id ++ "/videos/settings/"

/-- Method `Course.video_settings`. -/
def Course.video_settings (self : Course α) (data_format : String) : Except PyErr α :=
  self.client.get (video_settings_path self.course_id) data_format

/-- The path built by `Course.video_summary`. -/
def video_summary_path (course_id video_id : String) (start_date end_date : Option String) :
    String :=
  appendQuery ("courses/" ++ course_id ++ "/videos/" ++ video_id ++ "/summary/")
    (dateParams start_date end_date)

/-- Method `Course.video_summary`. -/
def Course.video_summary (self : Course α) (video_id : String)
    (start_date end_date : Option String) (data_format : String) : Except PyErr α :=
  self.client.get (video_summary_path self.course_id video_id start_date end_date) data_format

/-- The path built by `Course.videos`. -/
def videos_path (course_id : String) (start_date end_date : Option String) : String :=
  appendQuery ("courses/" ++ course_id ++ "/videos/") (dateParams start_date end_date)

/-- Method `Course.videos`. -/
def Course.videos (self : Course α) (start_date end_date : Option String)
    (data_format : String) : Except PyErr α :=
  self.client.get (videos_path self.course_id start_date end_date) data_format

/-- The path built by `Course.video_seek_times`. -/
def video_seek_times_path (course_id video_id : String)
    (start_date end_date : Option String) : String :=
  appendQuery ("courses/" ++ course_id ++ "/videos/" ++ video_id ++ "/seek_times/")
    (dateParams start_date end_date)

/-- Method `Course.video_seek_times`. -/
def Course.video_seek_times (self : Course α) (video_id : String)
    (start_date end_date : Option String) (data_format : String) : Except PyErr α :=
  self.client.get (video_seek_times_path self.course_id video_id start_date end_date) data_format

/-- The path built by `Course.on_campus_data`. -/
def on_campus_data_path (course_id : String) (start_date end_date : Option String) : String :=
  appendQuery ("courses/" ++ course_id ++ "/on_campus_student_data/")
    (dateParams start_date end_date)

/-- Method `Course.on_campus_data`. -/
def Course.on_campus_data (self : Course α) (start_date end_date : Option String)
    (data_format : String) : Except PyErr α :=
  self.client.get (on_campus_data_path self.course_id start_date end_date) data_format

/-! Explicit-state readings of the endpoint methods.  Every method body in
`course.py` reads `self.client` and `self.course_id` but contains no
assignment to `self` (only `__init__` assigns), so the state-passing
translation of each method returns the untouched object next to its
result. -/

/-- State-passing form of `Course.enrollment`. -/
def Course.enrollment_st (self : Course α) (demographic start_date end_date : Option String)
    (data_format : String) : Except PyErr α × Course α :=
  (self.enrollment demographic start_date end_date data_format, self)

/-- State-passing form of `Course.activity`. -/
def Course.activity_st (self : Course α) (activity_type start_date end_date : Option String)
    (data_format : String) : Except PyErr α × Course α :=
  (self.activity activity_type start_date end_date data_format, self)

/-- State-passing form of `Course.recent_activity`. -/
def Course.recent_activity_st (self : Course α) (activity_type : Option String)
    (data_format : String) : Except PyErr α × Course α :=
  (self.recent_activity activity_type data_format, self)

/-- State-passing form of `Course.problems`. -/
def Course.problems_st (self : Course α) (data_format : String) : Except PyErr α × Course α :=
  (self.problems data_format, self)

/-- State-passing form of `Course.video_settings`. -/
def Course.video_settings_st (self : Course α) (data_format : String) :
    Except PyErr α × Course α :=
  (self.video_settings data_format, self)

/-- State-passing form of `Course.video_summary`. -/
def Course.video_summary_st (self : Course α) (video_id : String)
    (start_date end_date : Option String) (data_format : String) : Except PyErr α × Course α :=
  (self.video_summary video_id start_date end_date data_format, self)

/-- State-passing form of `Course.videos`. -/
def Course.videos_st (self : Course α) (start_date end_date : Option String)
    (data_format : String) : Except PyErr α × Course α :=
  (self.videos start_date end_date data_format, self)

/-- State-passing form of `Course.video_seek_times`. -/
def Course.video_seek_times_st (self : Course α) (video_id : String)
    (start_date end_date : Option String) (data_format : String) : Except PyErr α × Course α :=
  (self.video_seek_times video_id start_date end_date data_format, self)

/-- State-passing form of `Course.on_campus_data`. -/
def Course.on_campus_data_st (self : Course α) (start_date end_date : Option String)
    (data_format : String) : Except PyErr α × Course α :=
  (self.on_campus_data start_date end_date data_format, self)

/-! Facts about the CPython 2.7 hash slots of the three query keys used by
`course.py`.  They sit on pairwise distinct slots of the 8-slot small
table (5, 6 and 7 respectively), so dict iteration visits a present
`start_date` first, then `end_date`, then `activity_type`. -/

theorem slot_start_le_end : slot "start_date" ≤ slot "end_date" := by decide

theorem slot_aty_not_le_start : ¬ slot "activity_type" ≤ slot "start_date" := by decide

theorem slot_aty_not_le_end : ¬ slot "activity_type" ≤ slot "end_date" := by decide

theorem dictItems_start_end (d e : String) :
    dictItems [("start_date", d), ("end_date", e)] = [("start_date", d), ("end_date", e)] := by
  show insertBySlot ("start_date", d) [("end_date", e)] = _
  rw [insertBySlot, if_pos slot_start_le_end]

theorem dictItems_aty_start (t d : String) :
    dictItems [("activity_type", t), ("start_date", d)] =
      [("start_date", d), ("activity_type", t)] := by
  show insertBySlot ("activity_type", t) [("start_date", d)] = _
  rw [insertBySlot, if_neg slot_aty_not_le_start]
  rfl

theorem dictItems_aty_end (t e : String) :
    dictItems [("activity_type", t), ("end_date", e)] =
      [("end_date", e), ("activity_type", t)] := by
  show insertBySlot ("activity_type", t) [("end_date", e)] = _
  rw [insertBySlot, if_neg slot_aty_not_le_end]
  rfl

theorem dictItems_aty_start_end (t d e : String) :
    dictItems [("activity_type", t), ("start_date", d), ("end_date", e)] =
      [("start_date", d), ("end_date", e), ("activity_type", t)] := by
  show insertBySlot ("activity_type", t) (insertBySlot ("start_date", d) [("end_date", e)]) = _
  rw [insertBySlot, if_pos slot_start_le_end, insertBySlot, if_neg slot_aty_not_le_start,
    insertBySlot, if_neg slot_aty_not_le_end]
  rfl

theorem dictItems_aty_only (t : String) :
    dictItems [("activity_type", t)] = [("activity_type", t)] := rfl

theorem qp_aty_key : quote_plus "activity_type" = "activity_type" := rfl

theorem urlencode_start_only (d : String) :
    urlencode [("start_date", d)] = "start_date=" ++ quote_plus d := rfl

theorem urlencode_end_only (e : String) :
    urlencode [("end_date", e)] = "end_date=" ++ quote_plus e := rfl

theorem urlencode_start_end (d e : String) :
    urlencode [("start_date", d), ("end_date", e)] =
      "start_date=" ++ quote_plus d ++ "&" ++ ("end_date=" ++ quote_plus e) := by
  rw [urlencode, dictItems_start_end]
  rfl

theorem str_append_ne_empty (s t : String) (hs : 0 < s.length) : s ++ t ≠ "" := by
  intro he
  have hl := congrArg String.length he
  rw [String.length_append, String.length_empty] at hl
  omega

/-- Case analysis of the shared query-building tail: present keys appear
in dict-iteration order (`start_date` on slot 5 comes before `end_date` on
slot 6) and the question mark is dropped when no parameter is present. -/
theorem appendQuery_dateParams (path : String) (sd ed : Option String) :
    appendQuery path (dateParams sd ed) =
      if truthy sd then
        if truthy ed then
          path ++ "?" ++
            ("start_date=" ++ quote_plus (pyStr sd) ++ "&" ++
              ("end_date=" ++ quote_plus (pyStr ed)))
        else path ++ "?" ++ ("start_date=" ++ quote_plus (pyStr sd))
      else
        if truthy ed then path ++ "?" ++ ("end_date=" ++ quote_plus (pyStr ed))
        else path := by
  cases hs : truthy sd <;> cases he : truthy ed <;>
    simp only [dateParams, hs, he, if_true, if_false, Bool.false_eq_true, List.nil_append,
      List.append_nil, List.singleton_append, ite_true, ite_false]
  · rfl
  · rw [appendQuery, urlencode_end_only,
      if_neg (str_append_ne_empty ("end_date=") (quote_plus (pyStr ed)) (by decide))]
  · rw [appendQuery, urlencode_start_only,
      if_neg (str_append_ne_empty ("start_date=") (quote_plus (pyStr sd)) (by decide))]
  · rw [appendQuery, urlencode_start_end, if_neg ?hne]
    case hne =>
      refine str_append_ne_empty _ ("end_date=" ++ quote_plus (pyStr ed)) ?_
      rw [String.length_append]
      have h1 : ("&" : String).length = 1 := rfl
      rw [h1]
      omega

/-- Case analysis of the activity path: the dict always carries the
`activity_type` entry, which sits on slot 7 and is therefore rendered
after the optional dates, and the question mark is always appended. -/
theorem activity_path_cases (cid : String) (aty sd ed : Option String) :
    activity_path cid aty sd ed =
      if truthy sd then
        if truthy ed then
          "courses/" ++ cid ++ "/activity/" ++ "?" ++
            ("start_date=" ++ quote_plus (pyStr sd) ++ "&" ++
              ("end_date=" ++ quote_plus (pyStr ed) ++ "&" ++
                ("activity_type=" ++ quote_plus (pyStr aty))))
        else
          "courses/" ++ cid ++ "/activity/" ++ "?" ++
            ("start_date=" ++ quote_plus (pyStr sd) ++ "&" ++
              ("activity_type=" ++ quote_plus (pyStr aty)))
      else
        if truthy ed then
          "courses/" ++ cid ++ "/activity/" ++ "?" ++
            ("end_date=" ++ quote_plus (pyStr ed) ++ "&" ++
              ("activity_type=" ++ quote_plus (pyStr aty)))
        else
          "courses/" ++ cid ++ "/activity/" ++ "?" ++
            ("activity_type=" ++ quote_plus (pyStr aty)) := by
  cases hs : truthy sd <;> cases he : truthy ed <;>
    simp only [activity_path, dateParams, hs, he, if_true, if_false, Bool.false_eq_true,
      List.nil_append, List.append_nil, List.singleton_append, List.cons_append, ite_true,
      ite_false]
  · rfl
  · rw [urlencode, dictItems_aty_end]
    rfl
  · rw [urlencode, dictItems_aty_start]
    rfl
  · rw [urlencode, dictItems_aty_start_end]
    rfl

theorem appendQuery_suffix (p : String) (l : List (String × String)) :
    ∃ r, appendQuery p l = p ++ r := by
  by_cases h : urlencode l = ""
  · refine ⟨"", ?_⟩
    show (if urlencode l = "" then p else p ++ "?" ++ urlencode l) = p ++ ""
    rw [if_pos h, String.append_empty]
  · refine ⟨"?" ++ urlencode l, ?_⟩
    show (if urlencode l = "" then p else p ++ "?" ++ urlencode l) = p ++ ("?" ++ urlencode l)
    rw [if_neg h, String.append_assoc]

theorem appendQuery_head (A p x : String) (l : List (String × String)) (hp : p = A ++ x) :
    ∃ r, appendQuery p l = A ++ r := by
  obtain ⟨r, hr⟩ := appendQuery_suffix p l
  exact ⟨x ++ r, by rw [hr, hp, String.append_assoc]⟩

theorem flatten_map_quoteChar (l : List Char) (h : l.all alwaysSafe = true) :
    (l.map (quoteChar "")).flatten = l := by
  induction l with
  | nil => rfl
  | cons c cs ih =>
    rw [List.all_cons, Bool.and_eq_true] at h
    rw [List.map_cons, List.flatten_cons, quoteChar, if_pos (by rw [h.1]; rfl), ih h.2]
    rfl

theorem no_space_of_all_safe (l : List Char) (h : l.all alwaysSafe = true) :
    l.contains ' ' = false := by
  cases hc : l.contains ' ' with
  | false => rfl
  | true =>
    exfalso
    have hmem : ' ' ∈ l := List.elem_iff.mp hc
    have hsafe := List.all_eq_true.mp h ' ' hmem
    simp [alwaysSafe] at hsafe

/-- Strings made of `always_safe` characters pass through `quote_plus`
unchanged. -/
theorem quote_plus_safe (t : String) (h : t.data.all alwaysSafe = true) : quote_plus t = t := by
  rw [quote_plus, no_space_of_all_safe t.data h]
  rw [if_neg (by simp)]
  exact String.ext (flatten_map_quoteChar t.data h)

/-- C1: for every combination of the optional `start_date` and `end_date`
of `enrollment` (each absent, empty, or non-empty), the query string holds
exactly the supplied keys with their (urlencoded) values, `start_date`
before `end_date`, and when neither is supplied the path ends with the
enrollment segment (or the demographic segment) with no question mark
appended.  On date strings of the documented shape `YYYY-mm-dd` the
`quote_plus` value encoding is the identity. -/
theorem enrollment_query_exact (cid : String) (dem sd ed : Option String) :
    enrollment_path cid dem sd ed =
      (let base := if truthy dem then "courses/" ++ cid ++ "/enrollment/" ++ pyStr dem ++ "/"
        else "courses/" ++ cid ++ "/enrollment/";
      if truthy sd then
        if truthy ed then
          base ++ "?" ++
            ("start_date=" ++ quote_plus (pyStr sd) ++ "&" ++
              ("end_date=" ++ quote_plus (pyStr ed)))
        else base ++ "?" ++ ("start_date=" ++ quote_plus (pyStr sd))
      else
        if truthy ed then base ++ "?" ++ ("end_date=" ++ quote_plus (pyStr ed))
        else base) := by
  show appendQuery
      (if truthy dem then "courses/" ++ cid ++ "/enrollment/" ++ pyStr dem ++ "/"
        else "courses/" ++ cid ++ "/enrollment/") (dateParams sd ed) = _
  exact appendQuery_dateParams _ sd ed

/-- C2: `activity` raises `InvalidRequestError` for every falsy
`activity_type` (exactly `None` and the empty string are falsy), and the
result of the falsy branch does not depend on `get`, which holds for every
collaborator `get` — no network call is made.  For truthy `activity_type`
no local validation error is raised: the method returns the collaborator
result of the built path. -/
theorem activity_falsy_raises {α : Type} (get : String → String → Except PyErr α)
    (cid : String) (aty sd ed : Option String) (df : String) :
    (Course.activity ⟨⟨get⟩, cid⟩ aty sd ed df =
      if truthy aty then get (activity_path cid aty sd ed) df
      else Except.error (PyErr.invalidRequestError "activity_type cannot be None."))
    ∧ (truthy aty = false ↔ aty = none ∨ aty = some "") := by
  constructor
  · cases h : truthy aty <;> simp [Course.activity, h]
  · cases aty with
    | none => simp [truthy]
    | some s => simp [truthy]

/-- C4: `videos` on course `edX/DemoX/Demo_Course` with both dates equal
to `2014-01-01` delegates to `client.get` with exactly the documented
path. -/
theorem videos_concrete_path {α : Type} (get : String → String → Except PyErr α)
    (df : String) :
    Course.videos ⟨⟨get⟩, "edX/DemoX/Demo_Course"⟩ (some "2014-01-01") (some "2014-01-01") df =
      get "courses/edX/DemoX/Demo_Course/videos/?start_date=2014-01-01&end_date=2014-01-01" df :=
  rfl

/-- C6: for every `activity_type` (truthy or not), `recent_activity`
delegates to `client.get` with exactly the recent-activity path carrying
the one `activity_type` query parameter; the method takes no
`start_date` or `end_date` argument, so no such parameter can appear. -/
theorem recent_activity_exact_path {α : Type} (get : String → String → Except PyErr α)
    (cid : String) (aty : Option String) (df : String) :
    Course.recent_activity ⟨⟨get⟩, cid⟩ aty df =
      get ("courses/" ++ cid ++ "/recent_activity/?activity_type=" ++ pyStr aty) df :=
  rfl

/-- C9: `recent_activity` performs no validation of `activity_type`: for
`None` it still calls `client.get`, rendering the literal `None` into the
query string, and for the empty string it renders nothing after the equals
sign. -/
theorem recent_activity_no_validation {α : Type} (get : String → String → Except PyErr α)
    (cid : String) (df : String) :
    (Course.recent_activity ⟨⟨get⟩, cid⟩ none df =
      get ("courses/" ++ cid ++ "/recent_activity/?activity_type=" ++ "None") df)
    ∧ (Course.recent_activity ⟨⟨get⟩, cid⟩ (some "") df =
      get ("courses/" ++ cid ++ "/recent_activity/?activity_type=" ++ "") df) :=
  ⟨rfl, rfl⟩

/-- C3: for every non-empty `activity_type` and every combination of the
optional dates, `activity` delegates to `client.get` on the activity path
whose query string is the urlencoding of a dict that always carries the
`activity_type` entry (rendered as `activity_type=` followed by the
`quote_plus` encoding of the value, the identity on tokens such as the
default `any`), while the `start_date` and `end_date` entries are present
exactly when their arguments are supplied and truthy. -/
theorem activity_querystring_contains_type {α : Type} (get : String → String → Except PyErr α)
    (cid t : String) (sd ed : Option String) (df : String) (h : t ≠ "") :
    (Course.activity ⟨⟨get⟩, cid⟩ (some t) sd ed df =
      get ("courses/" ++ cid ++ "/activity/" ++ "?" ++
        urlencode (("activity_type", t) :: dateParams sd ed)) df)
    ∧ (("activity_type=" ++ quote_plus t) ∈
        (dictItems (("activity_type", t) :: dateParams sd ed)).map
          (fun kv => quote_plus kv.1 ++ "=" ++ quote_plus kv.2))
    ∧ (("start_date", pyStr sd) ∈ dictItems (("activity_type", t) :: dateParams sd ed) ↔
        truthy sd = true)
    ∧ (("end_date", pyStr ed) ∈ dictItems (("activity_type", t) :: dateParams sd ed) ↔
        truthy ed = true) := by
  have ht : truthy (some t) = true := by simp [truthy, h]
  refine ⟨?_, ?_, ?_, ?_⟩
  · simp [Course.activity, ht, activity_path, pyStr]
  · cases hs : truthy sd <;> cases he : truthy ed <;>
      simp only [dateParams, hs, he, if_true, if_false, Bool.false_eq_true, List.nil_append,
        List.append_nil, List.singleton_append, List.cons_append, ite_true, ite_false]
    · rw [dictItems_aty_only]
      simp [qp_aty_key]
    · rw [dictItems_aty_end]
      simp [qp_aty_key]
    · rw [dictItems_aty_start]
      simp [qp_aty_key]
    · rw [dictItems_aty_start_end]
      simp [qp_aty_key]
  · cases hs : truthy sd <;> cases he : truthy ed <;>
      simp only [dateParams, hs, he, if_true, if_false, Bool.false_eq_true, List.nil_append,
        List.append_nil, List.singleton_append, List.cons_append, ite_true, ite_false]
    · rw [dictItems_aty_only]
      simp [qp_aty_key]
    · rw [dictItems_aty_end]
      simp
    · rw [dictItems_aty_start]
      simp
    · rw [dictItems_aty_start_end]
      simp
  · cases hs : truthy sd <;> cases he : truthy ed <;>
      simp only [dateParams, hs, he, if_true, if_false, Bool.false_eq_true, List.nil_append,
        List.append_nil, List.singleton_append, List.cons_append, ite_true, ite_false]
    · rw [dictItems_aty_only]
      simp [qp_aty_key]
    · rw [dictItems_aty_end]
      simp
    · rw [dictItems_aty_start]
      simp
    · rw [dictItems_aty_start_end]
      simp

/-- Witness for C3 at the concrete input `activity_type = any`,
`start_date = 2014-01-01`, no `end_date`, on course
`edX/DemoX/Demo_Course`. -/
theorem activity_querystring_contains_type_witness :
    (Course.activity ⟨⟨fun _ _ => Except.ok (0 : Nat)⟩, "edX/DemoX/Demo_Course"⟩ (some "any")
        (some "2014-01-01") none "json" =
      (fun _ _ => Except.ok (0 : Nat))
        ("courses/" ++ "edX/DemoX/Demo_Course" ++ "/activity/" ++ "?" ++
          urlencode (("activity_type", "any") :: dateParams (some "2014-01-01") none)) "json")
    ∧ (("activity_type=" ++ quote_plus "any") ∈
        (dictItems (("activity_type", "any") :: dateParams (some "2014-01-01") none)).map
          (fun kv => quote_plus kv.1 ++ "=" ++ quote_plus kv.2))
    ∧ (("start_date", pyStr (some "2014-01-01")) ∈
        dictItems (("activity_type", "any") :: dateParams (some "2014-01-01") none) ↔
        truthy (some "2014-01-01") = true)
    ∧ (("end_date", pyStr (none : Option String)) ∈
        dictItems (("activity_type", "any") :: dateParams (some "2014-01-01") none) ↔
        truthy (none : Option String) = true) :=
  activity_querystring_contains_type (fun _ _ => Except.ok 0) "edX/DemoX/Demo_Course" "any"
    (some "2014-01-01") none "json" (by decide)

/-- C5, counterexample: the implementation does not urlencode `course_id`
before embedding it into the path.  On the course id `a?b`, which holds
the reserved character `?`, the built enrollment path keeps `a?b`
verbatim, while the urlencoded embedding would read `a%3Fb`. -/
theorem course_id_not_urlencoded :
    enrollment_path "a?b" none none none = "courses/a?b/enrollment/"
    ∧ quote "a?b" "/" = "a%3Fb"
    ∧ "courses/a?b/enrollment/" ≠ "courses/" ++ quote "a?b" "/" ++ "/enrollment/" :=
  ⟨rfl, rfl, by decide⟩

/-- C5 as amended: every endpoint method embeds `course_id` verbatim — not
urlencoded — directly after the literal `courses/`; supplying a
URL-path-safe course id is the obligation of the caller. -/
theorem course_id_embedded_verbatim (cid vid : String) (dem aty sd ed : Option String) :
    (∃ r, enrollment_path cid dem sd ed = "courses/" ++ cid ++ r)
    ∧ (∃ r, activity_path cid aty sd ed = "courses/" ++ cid ++ r)
    ∧ (∃ r, recent_activity_path cid aty = "courses/" ++ cid ++ r)
    ∧ (∃ r, problems_path cid = "courses/" ++ cid ++ r)
    ∧ (∃ r, video_settings_path cid = "courses/" ++ cid ++ r)
    ∧ (∃ r, video_summary_path cid vid sd ed = "courses/" ++ cid ++ r)
    ∧ (∃ r, videos_path cid sd ed = "courses/" ++ cid ++ r)
    ∧ (∃ r, video_seek_times_path cid vid sd ed = "courses/" ++ cid ++ r)
    ∧ (∃ r, on_campus_data_path cid sd ed = "courses/" ++ cid ++ r) := by
  refine ⟨?_, ?_, ?_, ?_, ?_, ?_, ?_, ?_, ?_⟩
  · exact appendQuery_head ("courses/" ++ cid) _
      (if truthy dem then "/enrollment/" ++ pyStr dem ++ "/" else "/enrollment/") _
      (by cases hd : truthy dem <;> simp [hd, String.append_assoc])
  · exact ⟨"/activity/?" ++ urlencode (("activity_type", pyStr aty) :: dateParams sd ed),
      by simp [activity_path, String.append_assoc]⟩
  · exact ⟨"/recent_activity/?activity_type=" ++ pyStr aty,
      by simp [recent_activity_path, String.append_assoc]⟩
  · exact ⟨"/problems/", rfl⟩
  · exact ⟨"/videos/settings/", rfl⟩
  · exact appendQuery_head ("courses/" ++ cid) _ ("/videos/" ++ vid ++ "/summary/") _
      (by simp [String.append_assoc])
  · exact appendQuery_head ("courses/" ++ cid) _ "/videos/" _ rfl
  · exact appendQuery_head ("courses/" ++ cid) _ ("/videos/" ++ vid ++ "/seek_times/") _
      (by simp [String.append_assoc])
  · exact appendQuery_head ("courses/" ++ cid) _ "/on_campus_student_data/" _ rfl

/-- C7: every endpoint method, unless it raises the one local
`activity_type` validation error, calls `client.get` exactly once — on the
path given by its path builder — and returns the collaborator result
unchanged, for every collaborator `get`; in particular, with a
collaborator that raises an arbitrary error `e`, every method surfaces
exactly `e` (no translation, swallowing or retry). -/
theorem endpoints_delegate_once {α : Type} (get : String → String → Except PyErr α)
    (cid vid df : String) (dem aty sd ed : Option String) (e : PyErr) :
    (Course.enrollment ⟨⟨get⟩, cid⟩ dem sd ed df = get (enrollment_path cid dem sd ed) df)
    ∧ (Course.activity ⟨⟨get⟩, cid⟩ aty sd ed df =
        if truthy aty then get (activity_path cid aty sd ed) df
        else Except.error (PyErr.invalidRequestError "activity_type cannot be None."))
    ∧ (Course.recent_activity ⟨⟨get⟩, cid⟩ aty df = get (recent_activity_path cid aty) df)
    ∧ (Course.problems ⟨⟨get⟩, cid⟩ df = get (problems_path cid) df)
    ∧ (Course.video_settings ⟨⟨get⟩, cid⟩ df = get (video_settings_path cid) df)
    ∧ (Course.video_summary ⟨⟨get⟩, cid⟩ vid sd ed df = get (video_summary_path cid vid sd ed) df)
    ∧ (Course.videos ⟨⟨get⟩, cid⟩ sd ed df = get (videos_path cid sd ed) df)
    ∧ (Course.video_seek_times ⟨⟨get⟩, cid⟩ vid sd ed df =
        get (video_seek_times_path cid vid sd ed) df)
    ∧ (Course.on_campus_data ⟨⟨get⟩, cid⟩ sd ed df = get (on_campus_data_path cid sd ed) df)
    ∧ (Course.enrollment ⟨⟨fun _ _ => Except.error e⟩, cid⟩ dem sd ed df =
        (Except.error e : Except PyErr α))
    ∧ (Course.activity ⟨⟨fun _ _ => Except.error e⟩, cid⟩ aty sd ed df =
        if truthy aty then (Except.error e : Except PyErr α)
        else Except.error (PyErr.invalidRequestError "activity_type cannot be None."))
    ∧ (Course.recent_activity ⟨⟨fun _ _ => Except.error e⟩, cid⟩ aty df =
        (Except.error e : Except PyErr α))
    ∧ (Course.problems ⟨⟨fun _ _ => Except.error e⟩, cid⟩ df =
        (Except.error e : Except PyErr α))
    ∧ (Course.video_settings ⟨⟨fun _ _ => Except.error e⟩, cid⟩ df =
        (Except.error e : Except PyErr α))
    ∧ (Course.video_summary ⟨⟨fun _ _ => Except.error e⟩, cid⟩ vid sd ed df =
        (Except.error e : Except PyErr α))
    ∧ (Course.videos ⟨⟨fun _ _ => Except.error e⟩, cid⟩ sd ed df =
        (Except.error e : Except PyErr α))
    ∧ (Course.video_seek_times ⟨⟨fun _ _ => Except.error e⟩, cid⟩ vid sd ed df =
        (Except.error e : Except PyErr α))
    ∧ (Course.on_campus_data ⟨⟨fun _ _ => Except.error e⟩, cid⟩ sd ed df =
        (Except.error e : Except PyErr α)) := by
  refine ⟨rfl, ?_, rfl, rfl, rfl, rfl, rfl, rfl, rfl, rfl, ?_, rfl, rfl, rfl, rfl, rfl, rfl, rfl⟩
  · cases h : truthy aty <;> simp [Course.activity, h]
  · cases h : truthy aty <;> simp [Course.activity, h]

/-- C8: the constructor stores `course_id` and `client` as given, and the
state-passing form of every endpoint method returns the instance
unchanged, so the same instance can be reused for arbitrarily many calls
with identical behaviour (reusing the returned state repeats the exact
call). -/
theorem endpoints_state_invariant {α : Type} (c : Client α) (cid vid df : String)
    (self : Course α) (dem aty sd ed : Option String) :
    ((Course.mk c cid).course_id = cid)
    ∧ ((Course.mk c cid).client = c)
    ∧ ((self.enrollment_st dem sd ed df).2 = self)
    ∧ ((self.activity_st aty sd ed df).2 = self)
    ∧ ((self.recent_activity_st aty df).2 = self)
    ∧ ((self.problems_st df).2 = self)
    ∧ ((self.video_settings_st df).2 = self)
    ∧ ((self.video_summary_st vid sd ed df).2 = self)
    ∧ ((self.videos_st sd ed df).2 = self)
    ∧ ((self.video_seek_times_st vid sd ed df).2 = self)
    ∧ ((self.on_campus_data_st sd ed df).2 = self)
    ∧ ((self.enrollment_st dem sd ed df).2.enrollment_st dem sd ed df =
        self.enrollment_st dem sd ed df)
    ∧ ((self.activity_st aty sd ed df).2.activity_st aty sd ed df =
        self.activity_st aty sd ed df)
    ∧ ((self.recent_activity_st aty df).2.recent_activity_st aty df =
        self.recent_activity_st aty df)
    ∧ ((self.problems_st df).2.problems_st df = self.problems_st df)
    ∧ ((self.video_settings_st df).2.video_settings_st df = self.video_settings_st df)
    ∧ ((self.video_summary_st vid sd ed df).2.video_summary_st vid sd ed df =
        self.video_summary_st vid sd ed df)
    ∧ ((self.videos_st sd ed df).2.videos_st sd ed df = self.videos_st sd ed df)
    ∧ ((self.video_seek_times_st vid sd ed df).2.video_seek_times_st vid sd ed df =
        self.video_seek_times_st vid sd ed df)
    ∧ ((self.on_campus_data_st sd ed df).2.on_campus_data_st sd ed df =
        self.on_campus_data_st sd ed df) :=
  ⟨rfl, rfl, rfl, rfl, rfl, rfl, rfl, rfl, rfl, rfl, rfl, rfl, rfl, rfl, rfl, rfl, rfl, rfl,
    rfl, rfl⟩

/-- C10, counterexample: the claimed agreement of the two
`activity_type=` fragments on every value made only of unreserved
characters is false at the tilde, an RFC 3986 unreserved character that
Python 2's `always_safe` set omits: `activity` percent-encodes it
(`quote_plus` turns `~` into `%7E`) while `recent_activity` interpolates
it verbatim. -/
theorem activity_recent_tilde_differs :
    rfc3986Unreserved '~' = true
    ∧ ("~" : String).data.all rfc3986Unreserved = true
    ∧ activity_path "C" (some "~") none none = "courses/C/activity/?activity_type=%7E"
    ∧ recent_activity_path "C" (some "~") = "courses/C/recent_activity/?activity_type=~"
    ∧ quote_plus "~" ≠ "~" :=
  ⟨rfl, rfl, rfl, rfl, by decide⟩

/-- C10 as amended: `activity` sends `activity_type` through `quote_plus`
(inside `urllib.urlencode`) while `recent_activity` interpolates it
verbatim.  On every value made of the characters the implementation
treats as safe (`always_safe`: letters, digits, underscore, dot, hyphen —
the unreserved characters minus the tilde) the two produce the same
`activity_type=` fragment; on characters outside that set they differ,
e.g. the reserved `&`: `quote_plus` renders `a&b` as `a%26b` while
`recent_activity` keeps `a&b`. -/
theorem activity_encodes_recent_interpolates :
    (∀ (cid t : String), t ≠ "" → t.data.all alwaysSafe = true →
      activity_path cid (some t) none none =
        "courses/" ++ cid ++ "/activity/" ++ "?" ++ ("activity_type=" ++ t)
      ∧ recent_activity_path cid (some t) =
        "courses/" ++ cid ++ "/recent_activity/?activity_type=" ++ t)
    ∧ activity_path "C" (some "a&b") none none = "courses/C/activity/?activity_type=a%26b"
    ∧ recent_activity_path "C" (some "a&b") = "courses/C/recent_activity/?activity_type=a&b"
    ∧ quote_plus "a&b" ≠ "a&b" := by
  refine ⟨?_, rfl, rfl, by decide⟩
  intro cid t ht hsafe
  constructor
  · show "courses/" ++ cid ++ "/activity/" ++ "?" ++ urlencode [("activity_type", t)] = _
    rw [urlencode, dictItems_aty_only]
    show "courses/" ++ cid ++ "/activity/" ++ "?" ++ ("activity_type=" ++ quote_plus t) = _
    rw [quote_plus_safe t hsafe]
  · rfl

/-- Witness for C10 at the concrete safe token `played_video`. -/
theorem activity_encodes_recent_interpolates_witness :
    activity_path "edX" (some "played_video") none none =
      "courses/" ++ "edX" ++ "/activity/" ++ "?" ++ ("activity_type=" ++ "played_video")
    ∧ recent_activity_path "edX" (some "played_video") =
      "courses/" ++ "edX" ++ "/recent_activity/?activity_type=" ++ "played_video" :=
  activity_encodes_recent_interpolates.1 "edX" "played_video" (by decide) (by decide)

end AnalyticsClient
